import Mathlib

/-!
Formal model of the ngobrol_yuk real-time chat backend (controllers/chat.go).

The embedding is a shallow one: the Hub's serialized event loop (`Hub.run`)
becomes a step function on an explicit state, the read-pump pipeline of
`Client.readPump` becomes a pure function over that state, and the WebSocket
handshake (`WebSocketChat`) becomes a function from an abstract handshake
input to an optional Client.  Go maps are modelled as association lists,
buffered Go channels as a bounded queue with a closed flag, and the MongoDB
`users` / `messages` collections as in-state stores.  A Go panic (send on a
closed channel, double close) is modelled as `none` of an `Option` result.
-/

namespace NgobrolYuk

/-! ## Association lists (model of Go maps) -/

def alLookup {α β : Type} [DecidableEq α] (k : α) : List (α × β) → Option β
  | [] => none
  | (k', v) :: rest => if k = k' then some v else alLookup k rest

def alInsert {α β : Type} [DecidableEq α] (k : α) (v : β) : List (α × β) → List (α × β)
  | [] => [(k, v)]
  | (k', v') :: rest => if k = k' then (k, v) :: rest else (k', v') :: alInsert k v rest

def alErase {α β : Type} [DecidableEq α] (k : α) : List (α × β) → List (α × β)
  | [] => []
  | (k', v') :: rest => if k = k' then alErase k rest else (k', v') :: alErase k rest

/-! ## Data model

`Message` mirrors `models.Message` as used by chat.go (field `Type` of the Go
struct is rendered `msgType`, `Type` being a Lean keyword).  `Client` keeps the
authenticated `UserID`; the `Send` channel is identified by the connection id
`cid` and its state lives in the hub state's `chans` table.  `UserDoc` holds
the presence fields of a `users` document that chat.go writes. -/

structure Message where
  ID : Nat
  SenderID : String
  ReceiverID : String
  Content : String
  msgType : String
  Read : Bool
  CreatedAt : Nat
deriving DecidableEq

structure Client where
  cid : Nat
  UserID : String
deriving DecidableEq

structure ChanState where
  cap : Nat
  buf : List Message
  closed : Bool
deriving DecidableEq

structure UserDoc where
  online : Bool
  last_seen : Nat
deriving DecidableEq

structure HubState where
  Clients : List (String × Nat)
  chans : List (Nat × ChanState)
  users : List (String × UserDoc)
  messages : List Message
deriving DecidableEq

/-- UpdateOne on users with a full presence $set (online and last_seen), as in
Hub.run's register and unregister branches; no upsert, so a missing document
is left missing. -/
def setPresence (users : List (String × UserDoc)) (uid : String) (b : Bool) (t : Nat) :
    List (String × UserDoc) :=
  match alLookup uid users with
  | some _ => alInsert uid { online := b, last_seen := t } users
  | none => users

/-- UpdateOne on users with a $set of last_seen only, as in Client.readPump;
the online flag of the document is untouched. -/
def setLastSeen (users : List (String × UserDoc)) (uid : String) (t : Nat) :
    List (String × UserDoc) :=
  match alLookup uid users with
  | some u => alInsert uid { u with last_seen := t } users
  | none => users

/-! ## Hub (Hub.run event loop) -/

inductive HubEvent where
  | register (c : Client)
  | unregister (c : Client)
  | broadcast (m : Message)
deriving DecidableEq

/-- close(ch) on the channel of connection `cid`: closing an already closed
channel (or a nonexistent one) panics, modelled as `none`. -/
def closeSend (chans : List (Nat × ChanState)) (cid : Nat) :
    Option (List (Nat × ChanState)) :=
  match alLookup cid chans with
  | some ch => if ch.closed then none else some (alInsert cid { ch with closed := true } chans)
  | none => none

/-- One arm of the Broadcast case of Hub.run: look up `uid` in the registry
and, if present, try a non-blocking send of `m` on its channel (select with
default).  A full buffer takes the default branch: the entry is deleted and
the channel closed.  A send on a closed channel panics (`none`); an absent
registry entry is a no-op. -/
def sendTo (s : HubState) (uid : String) (m : Message) : Option HubState :=
  match alLookup uid s.Clients with
  | none => some s
  | some cid =>
    match alLookup cid s.chans with
    | none => none
    | some ch =>
      if ch.closed then none
      else if ch.buf.length < ch.cap then
        some { s with chans := alInsert cid { ch with buf := ch.buf ++ [m] } s.chans }
      else
        some { s with Clients := alErase uid s.Clients,
                      chans := alInsert cid { ch with closed := true } s.chans }

/-- One iteration of Hub.run, processing a single event at time `now`.
Register overwrites the registry entry and sets presence online.  Unregister
checks only that the identity has some registry entry; if so it deletes that
entry, closes the event's client's own channel, and sets presence offline.
Broadcast sends to the receiver's entry first, then the sender's. -/
def hubStep (now : Nat) (s : HubState) : HubEvent → Option HubState
  | .register c =>
      some { s with Clients := alInsert c.UserID c.cid s.Clients,
                    users := setPresence s.users c.UserID true now }
  | .unregister c =>
      match alLookup c.UserID s.Clients with
      | some _ =>
        match closeSend s.chans c.cid with
        | some chans2 =>
          some { s with Clients := alErase c.UserID s.Clients,
                        chans := chans2,
                        users := setPresence s.users c.UserID false now }
        | none => none
      | none => some s
  | .broadcast m =>
      match sendTo s m.ReceiverID m with
      | none => none
      | some s1 => sendTo s1 m.SenderID m

/-- Hub.run over a list of timestamped events. -/
def hubRun : HubState → List (Nat × HubEvent) → Option HubState
  | s, [] => some s
  | s, (t, e) :: rest =>
    match hubStep t s e with
    | none => none
    | some s1 => hubRun s1 rest

/-! ## Read pump pipeline (Client.readPump) -/

structure SendMessageRequest where
  ReceiverID : String
  Content : String
  msgType : String
deriving DecidableEq

def maxContentLength : Nat := 1000

def allowedTypes : List String := ["text", "image", "file"]

/-- Modelled from the spec: the `models` package, and in particular
`SendMessageRequest.Validate`, is not among the provided sources.  Following
the spec's validation step — receiver identity present, content non-empty and
within a length bound, type within the allowed set, failures collected as a
list — with the length bound and the allowed-type set chosen as
representative constants (`maxContentLength`, `allowedTypes`). -/
def SendMessageRequest.Validate (r : SendMessageRequest) : List String :=
  (if r.ReceiverID = "" then ["receiver_id is required"] else []) ++
  (if r.Content = "" then ["content is required"] else []) ++
  (if maxContentLength < r.Content.length then ["content is too long"] else []) ++
  (if allowedTypes.contains r.msgType then [] else ["invalid message type"])

/-- The Message literal built by Client.readPump: a fresh server-generated id,
the connection's authenticated identity as sender, the request's receiver,
content and type, read false, and the server clock as creation time (the
request carries no timestamp field at all). -/
def pipelineMessage (c : Client) (freshId tCreate : Nat) (req : SendMessageRequest) : Message :=
  { ID := freshId, SenderID := c.UserID, ReceiverID := req.ReceiverID,
    Content := req.Content, msgType := req.msgType, Read := false, CreatedAt := tCreate }

/-- One successfully decoded frame of Client.readPump, up to (and excluding)
the hand-off to the Broadcast channel.  Returns the updated state and the
message passed to Broadcast, if any.  `freshId` stands for
primitive.NewObjectID(), `tCreate` and `tSeen` for the two time.Now() calls,
and `insertOk` for the outcome of the InsertOne call on the messages
collection (a failed insert writes nothing). -/
def processFrame (c : Client) (freshId tCreate tSeen : Nat) (insertOk : Bool)
    (req : SendMessageRequest) (s : HubState) : HubState × Option Message :=
  if 0 < req.Validate.length then (s, none)
  else if req.ReceiverID = c.UserID then (s, none)
  else
    let m : Message := pipelineMessage c freshId tCreate req
    if insertOk then
      ({ s with messages := s.messages ++ [m],
                users := setLastSeen s.users c.UserID tSeen }, some m)
    else (s, none)

/-- A decoded frame followed by the Hub's processing of the Broadcast event it
emits (if any): the end-to-end effect of one loop iteration of
Client.readPump on the model state. -/
def frameStep (c : Client) (freshId tCreate tSeen : Nat) (insertOk : Bool)
    (req : SendMessageRequest) (s : HubState) : Option HubState :=
  match processFrame c freshId tCreate tSeen insertOk req s with
  | (s1, none) => some s1
  | (s1, some m) => hubStep tSeen s1 (.broadcast m)

/-- Outcome of Conn.ReadJSON for one iteration of the read loop. -/
inductive ReadResult where
  | ok (req : SendMessageRequest)
  | err
deriving DecidableEq

/-- One iteration of the read loop of Client.readPump including loop control:
the Bool is true when the loop continues to the next frame and false when it
breaks (which triggers the deferred Unregister). -/
def readPumpIter (c : Client) (freshId tCreate tSeen : Nat) (insertOk : Bool)
    (r : ReadResult) (s : HubState) : Option HubState × Bool :=
  match r with
  | .err => (some s, false)
  | .ok req => (frameStep c freshId tCreate tSeen insertOk req s, true)

/-! ## Handshake (WebSocketChat) -/

/-- Value found under the user_id key of the token's claims map; the Go code
performs a runtime type assertion to string. -/
inductive TokenClaim where
  | strVal (s : String)
  | otherVal
deriving DecidableEq

/-- Abstract view of one WebSocket upgrade request: the raw token query
parameter, whether jwt.Parse succeeded with a valid token, whether the claims
are a MapClaims, and the user_id claim if present. -/
structure HandshakeInput where
  token : String
  parseValid : Bool
  claimsMapOk : Bool
  userClaim : Option TokenClaim
deriving DecidableEq

/-- WebSocketChat up to Client construction: `none` means the transport is
closed immediately with no payload and nothing else happens; `some c` means a
Client with a fresh empty channel of capacity 256 is created, registered, and
its pumps started. -/
def webSocketChat (inp : HandshakeInput) (freshCid : Nat) : Option Client :=
  if inp.token = "" then none
  else if inp.parseValid = false then none
  else if inp.claimsMapOk = false then none
  else
    match inp.userClaim with
    | some (.strVal u) => if u = "" then none else some { cid := freshCid, UserID := u }
    | _ => none

/-- The channel WebSocketChat allocates for a fresh Client:
make(chan models.Message, 256). -/
def freshChan : ChanState := { cap := 256, buf := [], closed := false }

/-! ## Whole-system traces

The system state pairs the hub state with the set of connections ever
created (`conns`, mapping connection id to authenticated identity); events
are the externally triggered steps: a handshake attempt, one decoded frame
processed by a live connection's read pump, and a read-pump exit issuing
Unregister.  `none` marks an event that cannot occur (unknown connection id,
colliding fresh id) or a panic. -/

structure SysState where
  hub : HubState
  conns : List (Nat × String)
deriving DecidableEq

inductive SysEvent where
  | handshake (inp : HandshakeInput) (freshCid tNow : Nat)
  | frame (cid : Nat) (freshId tCreate tSeen : Nat) (insertOk : Bool) (req : SendMessageRequest)
  | disconnect (cid : Nat) (tNow : Nat)
deriving DecidableEq

def sysStep (s : SysState) : SysEvent → Option SysState
  | .handshake inp freshCid tNow =>
    match webSocketChat inp freshCid with
    | none => some s
    | some c =>
      match alLookup c.cid s.conns with
      | some _ => none
      | none =>
        let hub1 : HubState := { s.hub with chans := alInsert c.cid freshChan s.hub.chans }
        match hubStep tNow hub1 (.register c) with
        | none => none
        | some hub2 => some { hub := hub2, conns := alInsert c.cid c.UserID s.conns }
  | .frame cid freshId tCreate tSeen insertOk req =>
    match alLookup cid s.conns with
    | none => none
    | some uid =>
      match frameStep { cid := cid, UserID := uid } freshId tCreate tSeen insertOk req s.hub with
      | none => none
      | some h => some { s with hub := h }
  | .disconnect cid tNow =>
    match alLookup cid s.conns with
    | none => none
    | some uid =>
      match hubStep tNow s.hub (.unregister { cid := cid, UserID := uid }) with
      | none => none
      | some h => some { s with hub := h }

def initState (users : List (String × UserDoc)) : SysState :=
  { hub := { Clients := [], chans := [], users := users, messages := [] }, conns := [] }

/-- States reachable from a start state (empty registry, no connections, no
persisted messages, arbitrary users collection) by system events. -/
inductive Reachable : SysState → Prop where
  | start (users : List (String × UserDoc)) : Reachable (initState users)
  | step {s : SysState} {e : SysEvent} {s' : SysState} :
      Reachable s → sysStep s e = some s' → Reachable s'

/-! ## Concrete example states used by counterexamples and witnesses -/

def openChan : ChanState := { cap := 256, buf := [], closed := false }

/-- A registry where the identity alice is mapped to connection 2, while the
stale connection 1 for the same identity is still around with an open
channel. -/
def c1State : HubState :=
  { Clients := [("alice", 2)],
    chans := [(1, openChan), (2, openChan)],
    users := [("alice", { online := true, last_seen := 10 })],
    messages := [] }

def c1After : HubState :=
  { Clients := [],
    chans := [(1, { cap := 256, buf := [], closed := true }), (2, openChan)],
    users := [("alice", { online := false, last_seen := 99 })],
    messages := [] }

def c7State : HubState :=
  { Clients := [("alice", 1)],
    chans := [(1, openChan)],
    users := [("alice", { online := true, last_seen := 10 })],
    messages := [] }

def c7Mid : HubState :=
  { Clients := [("alice", 2)],
    chans := [(1, { cap := 256, buf := [], closed := true })],
    users := [("alice", { online := true, last_seen := 2 })],
    messages := [] }

def exReq : SendMessageRequest := { ReceiverID := "bob", Content := "hi", msgType := "text" }

def exMsg : Message :=
  { ID := 7, SenderID := "alice", ReceiverID := "bob", Content := "hi",
    msgType := "text", Read := false, CreatedAt := 5 }

/-- alice (connection 1) and bob (connection 2) both connected; bob's channel
has capacity 1 and is already full (holding one earlier message), alice's is
empty. -/
def c2State : HubState :=
  { Clients := [("alice", 1), ("bob", 2)],
    chans := [(1, { cap := 1, buf := [], closed := false }),
              (2, { cap := 1, buf := [exMsg], closed := false })],
    users := [("alice", { online := true, last_seen := 3 }),
              ("bob", { online := true, last_seen := 4 })],
    messages := [] }

/-- alice (connection 1) and bob (connection 2) both connected with empty
open channels. -/
def c4State : HubState :=
  { Clients := [("alice", 1), ("bob", 2)],
    chans := [(1, openChan), (2, openChan)],
    users := [("alice", { online := true, last_seen := 3 }),
              ("bob", { online := true, last_seen := 4 })],
    messages := [] }

def exClient : Client := { cid := 1, UserID := "alice" }

def exHandshake : HandshakeInput :=
  { token := "tok", parseValid := true, claimsMapOk := true,
    userClaim := some (TokenClaim.strVal "alice") }

def c6Req : SendMessageRequest := { ReceiverID := "", Content := "", msgType := "nope" }

def c7Un1 : HubState :=
  { Clients := [],
    chans := [(1, { cap := 256, buf := [], closed := true })],
    users := [("alice", { online := false, last_seen := 1 })],
    messages := [] }

def c7Un2 : HubState :=
  { Clients := [("bob", 3)],
    chans := [(1, { cap := 256, buf := [], closed := true })],
    users := [("alice", { online := false, last_seen := 1 })],
    messages := [] }

/-- Only bob is connected (connection 2) and his capacity-1 queue is already
full; his persisted presence is online. -/
def c10State : HubState :=
  { Clients := [("bob", 2)],
    chans := [(2, { cap := 1, buf := [exMsg], closed := false })],
    users := [("bob", { online := true, last_seen := 4 })],
    messages := [] }

def c10After : HubState :=
  { Clients := [],
    chans := [(2, { cap := 1, buf := [exMsg], closed := true })],
    users := [("bob", { online := true, last_seen := 4 })],
    messages := [] }

/-- Only alice is connected (connection 1) and her capacity-1 echo queue is
already full; her persisted presence is online.  A dispatch from alice to the
offline bob will overflow on the sender-echo arm. -/
def c10SState : HubState :=
  { Clients := [("alice", 1)],
    chans := [(1, { cap := 1, buf := [exMsg], closed := false })],
    users := [("alice", { online := true, last_seen := 3 })],
    messages := [] }

def c10SAfter : HubState :=
  { Clients := [],
    chans := [(1, { cap := 1, buf := [exMsg], closed := true })],
    users := [("alice", { online := true, last_seen := 3 })],
    messages := [] }

/-- Every message buffered in any channel of the table has distinct sender
and receiver identities. -/
def chansOkL (l : List (Nat × ChanState)) : Prop :=
  ∀ cid ch, alLookup cid l = some ch → ∀ m ∈ ch.buf, m.SenderID ≠ m.ReceiverID

/-- No self-addressed message has been persisted or is sitting in any
outbound queue.  Since the model's message store is append-only and queues
are never drained, this current-state property coincides with a history
property over everything ever persisted or dispatched. -/
def hubOk (h : HubState) : Prop :=
  (∀ m ∈ h.messages, m.SenderID ≠ m.ReceiverID) ∧ chansOkL h.chans

/-! ## Helper lemmas -/

theorem alLookup_alInsert {α β : Type} [DecidableEq α] (k k2 : α) (v : β)
    (l : List (α × β)) :
    alLookup k (alInsert k2 v l) = if k = k2 then some v else alLookup k l := by
  induction l with
  | nil => simp [alInsert, alLookup]
  | cons hd tl ih =>
    obtain ⟨k', v'⟩ := hd
    simp only [alInsert]
    by_cases h2 : k2 = k'
    · subst h2
      rw [if_pos rfl]
      by_cases h : k = k2 <;> simp [alLookup, h]
    · rw [if_neg h2]
      by_cases h : k = k'
      · subst h
        have hk2 : ¬ k = k2 := by
          intro hh
          exact h2 hh.symm
        simp [alLookup, hk2]
      · simp [alLookup, h, ih]

theorem alLookup_alErase {α β : Type} [DecidableEq α] (k k2 : α) (l : List (α × β)) :
    alLookup k (alErase k2 l) = if k = k2 then none else alLookup k l := by
  induction l with
  | nil => simp [alErase, alLookup]
  | cons hd tl ih =>
    obtain ⟨k', v'⟩ := hd
    simp only [alErase]
    by_cases h2 : k2 = k'
    · subst h2
      rw [if_pos rfl, ih]
      by_cases h : k = k2 <;> simp [alLookup, h]
    · rw [if_neg h2]
      by_cases h : k = k'
      · subst h
        have hk2 : ¬ k = k2 := by
          intro hh
          exact h2 hh.symm
        simp [alLookup, hk2, ih]
      · simp [alLookup, h, ih]

theorem users_sendTo {s s' : HubState} {uid : String} {m : Message}
    (hs : sendTo s uid m = some s') : s'.users = s.users := by
  unfold sendTo at hs
  split at hs
  · cases hs
    rfl
  · split at hs
    · cases hs
    · split at hs
      · cases hs
      · split at hs
        · cases hs
          rfl
        · cases hs
          rfl

theorem messages_sendTo {s s' : HubState} {uid : String} {m : Message}
    (hs : sendTo s uid m = some s') : s'.messages = s.messages := by
  unfold sendTo at hs
  split at hs
  · cases hs
    rfl
  · split at hs
    · cases hs
    · split at hs
      · cases hs
      · split at hs
        · cases hs
          rfl
        · cases hs
          rfl

theorem clientsNone_sendTo {s s' : HubState} {uid : String} {m : Message} {u : String}
    (h : alLookup u s.Clients = none) (hs : sendTo s uid m = some s') :
    alLookup u s'.Clients = none := by
  unfold sendTo at hs
  split at hs
  · cases hs
    exact h
  · split at hs
    · cases hs
    · split at hs
      · cases hs
      · split at hs
        · cases hs
          exact h
        · cases hs
          show alLookup u (alErase uid s.Clients) = none
          rw [alLookup_alErase]
          by_cases hu : u = uid <;> simp [hu, h]

theorem clientsNone_hubStep {s s' : HubState} {u : String} {t : Nat} {e : HubEvent}
    (h : alLookup u s.Clients = none)
    (hreg : ∀ d : Client, e = HubEvent.register d → d.UserID ≠ u)
    (hs : hubStep t s e = some s') : alLookup u s'.Clients = none := by
  cases e with
  | register d =>
    have hd : d.UserID ≠ u := hreg d rfl
    simp only [hubStep, Option.some.injEq] at hs
    subst hs
    show alLookup u (alInsert d.UserID d.cid s.Clients) = none
    rw [alLookup_alInsert]
    have hu : ¬ u = d.UserID := by
      intro hh
      exact hd hh.symm
    simp [hu, h]
  | unregister d =>
    simp only [hubStep] at hs
    split at hs
    · split at hs
      · cases hs
        show alLookup u (alErase d.UserID s.Clients) = none
        rw [alLookup_alErase]
        by_cases hu : u = d.UserID <;> simp [hu, h]
      · cases hs
    · cases hs
      exact h
  | broadcast m =>
    simp only [hubStep] at hs
    split at hs
    · cases hs
    · rename_i s1 hmid
      exact clientsNone_sendTo (clientsNone_sendTo h hmid) hs

theorem clientsNone_hubRun {u : String} (es : List (Nat × HubEvent)) :
    ∀ s s' : HubState, alLookup u s.Clients = none →
    (∀ p ∈ es, ∀ d : Client, p.2 = HubEvent.register d → d.UserID ≠ u) →
    hubRun s es = some s' → alLookup u s'.Clients = none := by
  induction es with
  | nil =>
    intro s s' h _ hrun
    cases hrun
    exact h
  | cons p rest ih =>
    intro s s' h hes hrun
    obtain ⟨t, e⟩ := p
    simp only [hubRun] at hrun
    split at hrun
    · cases hrun
    · rename_i s1 hstep
      have h1 : alLookup u s1.Clients = none :=
        clientsNone_hubStep h (hes (t, e) (List.mem_cons_self _ _)) hstep
      exact ih s1 s' h1 (fun q hq => hes q (List.mem_cons_of_mem _ hq)) hrun

theorem usersLookup_setPresence_ne {users : List (String × UserDoc)} {u uid : String}
    {b : Bool} {t : Nat} (h : u ≠ uid) :
    alLookup u (setPresence users uid b t) = alLookup u users := by
  unfold setPresence
  split
  · rw [alLookup_alInsert, if_neg h]
  · rfl

theorem evicted_hubStep {s s' : HubState} {u : String} {v : Option UserDoc} {t : Nat}
    {e : HubEvent}
    (h : alLookup u s.Clients = none) (hu : alLookup u s.users = v)
    (hreg : ∀ d : Client, e = HubEvent.register d → d.UserID ≠ u)
    (hs : hubStep t s e = some s') :
    alLookup u s'.Clients = none ∧ alLookup u s'.users = v := by
  refine ⟨clientsNone_hubStep h hreg hs, ?_⟩
  cases e with
  | register d =>
    have hd : u ≠ d.UserID := by
      intro hh
      exact hreg d rfl hh.symm
    simp only [hubStep, Option.some.injEq] at hs
    subst hs
    show alLookup u (setPresence s.users d.UserID true t) = v
    rw [usersLookup_setPresence_ne hd]
    exact hu
  | unregister d =>
    simp only [hubStep] at hs
    split at hs
    · rename_i rc hrc
      have hd : u ≠ d.UserID := by
        intro hh
        rw [hh] at h
        rw [h] at hrc
        cases hrc
      split at hs
      · cases hs
        show alLookup u (setPresence s.users d.UserID false t) = v
        rw [usersLookup_setPresence_ne hd]
        exact hu
      · cases hs
    · cases hs
      exact hu
  | broadcast m =>
    simp only [hubStep] at hs
    split at hs
    · cases hs
    · rename_i s1 h1
      rw [users_sendTo hs, users_sendTo h1]
      exact hu

theorem evicted_hubRun {u : String} {v : Option UserDoc} (es : List (Nat × HubEvent)) :
    ∀ s s' : HubState, alLookup u s.Clients = none → alLookup u s.users = v →
    (∀ p ∈ es, ∀ d : Client, p.2 = HubEvent.register d → d.UserID ≠ u) →
    hubRun s es = some s' →
    alLookup u s'.Clients = none ∧ alLookup u s'.users = v := by
  induction es with
  | nil =>
    intro s s' h hu _ hrun
    cases hrun
    exact ⟨h, hu⟩
  | cons p rest ih =>
    intro s s' h hu hes hrun
    obtain ⟨t, e⟩ := p
    simp only [hubRun] at hrun
    split at hrun
    · cases hrun
    · rename_i s1 hstep
      obtain ⟨h1, hu1⟩ := evicted_hubStep h hu (hes (t, e) (List.mem_cons_self _ _)) hstep
      exact ih s1 s' h1 hu1 (fun q hq => hes q (List.mem_cons_of_mem _ hq)) hrun

theorem stale_online_after_eviction {s' : HubState} {u : String} {d : UserDoc} (cid : Nat)
    (hcl : alLookup u s'.Clients = none)
    (hud : alLookup u s'.users = some d)
    (honline : d.online = true)
    (es : List (Nat × HubEvent)) (s2 : HubState) (t2 : Nat)
    (hes : ∀ p ∈ es, ∀ c : Client, p.2 = HubEvent.register c → c.UserID ≠ u)
    (hrun : hubRun s' es = some s2) :
    alLookup u s2.users = some { online := true, last_seen := d.last_seen } ∧
    alLookup u s2.Clients = none ∧
    hubStep t2 s2 (HubEvent.unregister { cid := cid, UserID := u }) = some s2 := by
  obtain ⟨h1, h2⟩ := evicted_hubRun es s' s2 hcl hud hes hrun
  have hd' : ({ online := true, last_seen := d.last_seen } : UserDoc) = d := by
    cases d
    simp at honline
    rw [honline]
  rw [hd']
  exact ⟨h2, h1, by simp [hubStep, h1]⟩

theorem chansOkL_alInsert {l : List (Nat × ChanState)} {cid : Nat} {ch : ChanState}
    (h : chansOkL l) (hch : ∀ m ∈ ch.buf, m.SenderID ≠ m.ReceiverID) :
    chansOkL (alInsert cid ch l) := by
  intro c' ch' hc'
  rw [alLookup_alInsert] at hc'
  by_cases hcc : c' = cid
  · rw [if_pos hcc] at hc'
    cases hc'
    exact hch
  · rw [if_neg hcc] at hc'
    exact h c' ch' hc'

theorem hubOk_sendTo {s s' : HubState} {uid : String} {m : Message}
    (h : hubOk s) (hm : m.SenderID ≠ m.ReceiverID) (hs : sendTo s uid m = some s') :
    hubOk s' := by
  obtain ⟨hmsg, hch⟩ := h
  unfold sendTo at hs
  split at hs
  · cases hs
    exact ⟨hmsg, hch⟩
  · rename_i cid hcid
    split at hs
    · cases hs
    · rename_i ch hchl
      split at hs
      · cases hs
      · split at hs
        · cases hs
          refine ⟨hmsg, ?_⟩
          apply chansOkL_alInsert hch
          intro x hx
          rcases List.mem_append.mp hx with hx | hx
          · exact hch cid ch hchl x hx
          · rw [List.mem_singleton] at hx
            subst hx
            exact hm
        · cases hs
          refine ⟨hmsg, ?_⟩
          apply chansOkL_alInsert hch
          intro x hx
          exact hch cid ch hchl x hx

theorem hubOk_register {s s' : HubState} {c : Client} {t : Nat}
    (h : hubOk s) (hs : hubStep t s (HubEvent.register c) = some s') : hubOk s' := by
  simp only [hubStep, Option.some.injEq] at hs
  subst hs
  exact h

theorem hubOk_unregister {s s' : HubState} {c : Client} {t : Nat}
    (h : hubOk s) (hs : hubStep t s (HubEvent.unregister c) = some s') : hubOk s' := by
  obtain ⟨hmsg, hch⟩ := h
  simp only [hubStep] at hs
  split at hs
  · split at hs
    · rename_i chans2 hclose
      cases hs
      refine ⟨hmsg, ?_⟩
      unfold closeSend at hclose
      split at hclose
      · rename_i ch hchl
        split at hclose
        · cases hclose
        · cases hclose
          apply chansOkL_alInsert hch
          intro x hx
          exact hch _ ch hchl x hx
      · cases hclose
    · cases hs
  · cases hs
    exact ⟨hmsg, hch⟩

theorem hubOk_broadcast {s s' : HubState} {m : Message} {t : Nat}
    (h : hubOk s) (hm : m.SenderID ≠ m.ReceiverID)
    (hs : hubStep t s (HubEvent.broadcast m) = some s') : hubOk s' := by
  simp only [hubStep] at hs
  split at hs
  · cases hs
  · rename_i s1 h1
    exact hubOk_sendTo (hubOk_sendTo h hm h1) hm hs

theorem hubOk_frameStep {c : Client} {freshId tCreate tSeen : Nat} {insertOk : Bool}
    {req : SendMessageRequest} {s s' : HubState}
    (h : hubOk s) (hs : frameStep c freshId tCreate tSeen insertOk req s = some s') :
    hubOk s' := by
  unfold frameStep at hs
  split at hs
  · rename_i s1 hp
    have hseq : s1 = s := by
      simp only [processFrame] at hp
      split at hp
      · cases hp
        rfl
      · split at hp
        · cases hp
          rfl
        · split at hp
          · have := congrArg Prod.snd hp
            simp at this
          · cases hp
            rfl
    subst hseq
    cases hs
    exact h
  · rename_i s1 m hp
    simp only [processFrame] at hp
    split at hp
    · have := congrArg Prod.snd hp
      simp at this
    · split at hp
      · have := congrArg Prod.snd hp
        simp at this
      · rename_i hns
        split at hp
        · have h1 := congrArg Prod.fst hp
          have h2 := congrArg Prod.snd hp
          simp only at h1 h2
          rw [Option.some.injEq] at h2
          subst h1
          subst h2
          have hgood : (pipelineMessage c freshId tCreate req).SenderID ≠
              (pipelineMessage c freshId tCreate req).ReceiverID := by
            show c.UserID ≠ req.ReceiverID
            intro hh
            exact hns hh.symm
          apply hubOk_broadcast _ hgood hs
          refine ⟨?_, h.2⟩
          intro x hx
          rcases List.mem_append.mp hx with hx | hx
          · exact h.1 x hx
          · rw [List.mem_singleton] at hx
            subst hx
            exact hgood
        · have := congrArg Prod.snd hp
          simp at this

theorem hubOk_sysStep {s s' : SysState} {e : SysEvent}
    (h : hubOk s.hub) (hs : sysStep s e = some s') : hubOk s'.hub := by
  cases e with
  | handshake inp cid tNow =>
    simp only [sysStep] at hs
    split at hs
    · cases hs
      exact h
    · rename_i c hws
      split at hs
      · cases hs
      · split at hs
        · cases hs
        · rename_i hub2 hreg
          cases hs
          apply hubOk_register _ hreg
          refine ⟨h.1, ?_⟩
          apply chansOkL_alInsert h.2
          intro x hx
          simp [freshChan] at hx
  | frame cid freshId tCreate tSeen insertOk req =>
    simp only [sysStep] at hs
    split at hs
    · cases hs
    · split at hs
      · cases hs
      · rename_i h2 hframe
        cases hs
        exact hubOk_frameStep h hframe
  | disconnect cid tNow =>
    simp only [sysStep] at hs
    split at hs
    · cases hs
    · split at hs
      · cases hs
      · rename_i h2 hun
        cases hs
        exact hubOk_unregister h hun

/-! ## Claims -/

/-- C1, counterexample: in `c1State` the identity alice is mapped to
connection 2, yet an Unregister for the stale connection 1 under the same
identity removes the newer connection's registry entry and sets the persisted
presence offline — the code checks only that some entry exists for the
identity, not that it is this exact connection. -/
theorem C1_counterexample :
    alLookup "alice" c1State.Clients = some 2 ∧
    hubStep 99 c1State (HubEvent.unregister { cid := 1, UserID := "alice" }) = some c1After ∧
    alLookup "alice" c1After.Clients = none ∧
    alLookup "alice" c1After.users = some { online := false, last_seen := 99 } := by
  decide

/-- C1 (amended): an Unregister(conn) event removes the registry entry for
conn's identity whenever any entry exists for that identity, regardless of
which Connection that entry maps to; it then closes conn's own outbound
queue and sets the persisted presence for the identity to offline.  Only
when no entry at all exists for the identity is the event a no-op. -/
theorem C1_unregister_removes_any_entry (s : HubState) (c : Client) (t : Nat) :
    (∀ (d : Nat) (ch : ChanState), alLookup c.UserID s.Clients = some d →
      alLookup c.cid s.chans = some ch → ch.closed = false →
      hubStep t s (HubEvent.unregister c) =
        some { s with Clients := alErase c.UserID s.Clients,
                      chans := alInsert c.cid { ch with closed := true } s.chans,
                      users := setPresence s.users c.UserID false t }) ∧
    (alLookup c.UserID s.Clients = none →
      hubStep t s (HubEvent.unregister c) = some s) := by
  constructor
  · intro d ch hreg hch hopen
    simp [hubStep, closeSend, hreg, hch, hopen]
  · intro h
    simp [hubStep, h]

/-- C1, witness: the amended statement applied to the concrete stale
disconnect of connection 1 while alice's registry entry maps to
connection 2. -/
theorem C1_witness :
    hubStep 99 c1State (HubEvent.unregister { cid := 1, UserID := "alice" }) =
      some { c1State with
               Clients := alErase "alice" c1State.Clients,
               chans := alInsert 1 { openChan with closed := true } c1State.chans,
               users := setPresence c1State.users "alice" false 99 } :=
  (C1_unregister_removes_any_entry c1State { cid := 1, UserID := "alice" } 99).left
    2 openChan (by decide) (by decide) (by decide)

/-- C3: if the InsertOne on the messages collection fails, a request that
passed validation and the self-address check is dropped with no state change
at all — no message persisted, no last_seen refresh, no message handed to
Broadcast, and the whole frame leaves the state untouched. -/
theorem C3_insert_failure_drops (c : Client) (freshId tCreate tSeen : Nat)
    (req : SendMessageRequest) (s : HubState)
    (hv : req.Validate = [])
    (hself : req.ReceiverID ≠ c.UserID) :
    processFrame c freshId tCreate tSeen false req s = (s, none) ∧
    frameStep c freshId tCreate tSeen false req s = some s := by
  have h1 : processFrame c freshId tCreate tSeen false req s = (s, none) := by
    simp [processFrame, hv, hself]
  refine ⟨h1, ?_⟩
  simp [frameStep, h1]

/-- C3, witness: a concrete valid request from alice to bob whose insert
fails leaves the concrete two-user state untouched. -/
theorem C3_witness :
    exReq.Validate = [] ∧ exReq.ReceiverID ≠ exClient.UserID ∧
    processFrame exClient 7 5 6 false exReq c4State = (c4State, none) ∧
    frameStep exClient 7 5 6 false exReq c4State = some c4State := by
  refine ⟨by decide, by decide, ?_, ?_⟩
  · exact (C3_insert_failure_drops exClient 7 5 6 exReq c4State (by decide) (by decide)).left
  · exact (C3_insert_failure_drops exClient 7 5 6 exReq c4State (by decide) (by decide)).right

/-- C6: a decoded request whose validation error list is non-empty is dropped
with no persistence and no dispatch — the state is unchanged — and the read
loop continues to the next frame (continuation flag true) instead of
terminating the connection. -/
theorem C6_validation_failure_continues (c : Client) (freshId tCreate tSeen : Nat)
    (insertOk : Bool) (req : SendMessageRequest) (s : HubState)
    (hv : req.Validate ≠ []) :
    readPumpIter c freshId tCreate tSeen insertOk (ReadResult.ok req) s = (some s, true) := by
  have hlen : 0 < req.Validate.length := List.length_pos.mpr hv
  simp [readPumpIter, frameStep, processFrame, hlen]

/-- C6, witness: a concrete request failing validation (empty receiver, empty
content, disallowed type) leaves the concrete state unchanged and the loop
running. -/
theorem C6_witness :
    c6Req.Validate ≠ [] ∧
    readPumpIter exClient 7 5 6 true (ReadResult.ok c6Req) c4State = (some c4State, true) :=
  ⟨by decide, C6_validation_failure_continues exClient 7 5 6 true c6Req c4State (by decide)⟩

/-- C7, counterexample: Unregister(conn 1), then a Register of a new
connection 2 under the same identity, is processed fine; a second
Unregister(conn 1) after that re-registration is not a no-op — it finds the
identity mapped (to connection 2), deletes that newer entry and then
attempts to close connection 1's already closed queue, a double close,
modelled as the panic value `none`.  The second Unregister therefore does
have additional effects when the identity re-registered in between. -/
theorem C7_counterexample :
    hubRun c7State [(1, HubEvent.unregister { cid := 1, UserID := "alice" }),
                    (2, HubEvent.register { cid := 2, UserID := "alice" })] = some c7Mid ∧
    hubRun c7State [(1, HubEvent.unregister { cid := 1, UserID := "alice" }),
                    (2, HubEvent.register { cid := 2, UserID := "alice" }),
                    (3, HubEvent.unregister { cid := 1, UserID := "alice" })] = none := by
  decide

/-- C7 (amended): processing Unregister(conn) a second time has no additional
effect provided no Register event for conn's identity was processed in
between: after any successfully processed Unregister(conn), and any further
events among which no Register carries conn's identity, a second
Unregister(conn) returns the state unchanged — registry, queues and persisted
presence untouched. -/
theorem C7_unregister_idempotent_no_reregister (s s1 s2 : HubState) (c : Client)
    (t t' : Nat) (es : List (Nat × HubEvent))
    (h1 : hubStep t s (HubEvent.unregister c) = some s1)
    (hes : ∀ p ∈ es, ∀ d : Client, p.2 = HubEvent.register d → d.UserID ≠ c.UserID)
    (h2 : hubRun s1 es = some s2) :
    hubStep t' s2 (HubEvent.unregister c) = some s2 := by
  have h0 : alLookup c.UserID s1.Clients = none := by
    simp only [hubStep] at h1
    split at h1
    · split at h1
      · cases h1
        show alLookup c.UserID (alErase c.UserID s.Clients) = none
        rw [alLookup_alErase]
        simp
      · cases h1
    · rename_i hnone
      cases h1
      exact hnone
  have hn : alLookup c.UserID s2.Clients = none :=
    clientsNone_hubRun es s1 s2 h0 hes h2
  simp [hubStep, hn]

/-- C7, witness: after a concrete Unregister of alice's connection 1 and an
intervening Register of bob, a second Unregister of connection 1 is a
no-op. -/
theorem C7_witness :
    hubStep 9 c7Un2 (HubEvent.unregister { cid := 1, UserID := "alice" }) = some c7Un2 :=
  C7_unregister_idempotent_no_reregister c7State c7Un1 c7Un2
    { cid := 1, UserID := "alice" } 1 9
    [(2, HubEvent.register { cid := 3, UserID := "bob" })]
    (by decide)
    (by
      intro p hp d hd
      simp only [List.mem_singleton] at hp
      subst hp
      cases hd
      decide)
    (by decide)

/-- C2: dispatching a message between distinct identities when one of the two
target queues is full evicts exactly that target — its registry entry is
deleted and its queue closed — while the other party's enqueue happens exactly
as it would have anyway.  First conjunct: the receiver's queue is full and the
sender's has room; second conjunct: the reverse. -/
theorem C2_full_queue_evicts_only_that_target (s : HubState) (m : Message) (rc cs : Nat)
    (chR chS : ChanState) (t : Nat)
    (hne : m.SenderID ≠ m.ReceiverID)
    (hrc : alLookup m.ReceiverID s.Clients = some rc)
    (hcs : alLookup m.SenderID s.Clients = some cs)
    (hcid : rc ≠ cs)
    (hchR : alLookup rc s.chans = some chR)
    (hchS : alLookup cs s.chans = some chS)
    (hopenR : chR.closed = false)
    (hopenS : chS.closed = false) :
    (¬ chR.buf.length < chR.cap → chS.buf.length < chS.cap →
      hubStep t s (HubEvent.broadcast m) =
        some { s with Clients := alErase m.ReceiverID s.Clients,
                      chans := alInsert cs { chS with buf := chS.buf ++ [m] }
                                (alInsert rc { chR with closed := true } s.chans) }) ∧
    (chR.buf.length < chR.cap → ¬ chS.buf.length < chS.cap →
      hubStep t s (HubEvent.broadcast m) =
        some { s with Clients := alErase m.SenderID s.Clients,
                      chans := alInsert cs { chS with closed := true }
                                (alInsert rc { chR with buf := chR.buf ++ [m] } s.chans) }) := by
  have hcsrc : ¬ cs = rc := by
    intro hh
    exact hcid hh.symm
  constructor
  · intro hfullR hokS
    have hs1 : sendTo s m.ReceiverID m =
        some { s with Clients := alErase m.ReceiverID s.Clients,
                      chans := alInsert rc { chR with closed := true } s.chans } := by
      simp [sendTo, hrc, hchR, hopenR, hfullR]
    have hlc : alLookup m.SenderID (alErase m.ReceiverID s.Clients) = some cs := by
      rw [alLookup_alErase, if_neg hne, hcs]
    have hlch : alLookup cs (alInsert rc { chR with closed := true } s.chans) = some chS := by
      rw [alLookup_alInsert, if_neg hcsrc, hchS]
    simp only [hubStep, hs1]
    simp [sendTo, hlc, hlch, hopenS, hokS]
  · intro hokR hfullS
    have hs1 : sendTo s m.ReceiverID m =
        some { s with chans := alInsert rc { chR with buf := chR.buf ++ [m] } s.chans } := by
      simp [sendTo, hrc, hchR, hopenR, hokR]
    have hlch : alLookup cs (alInsert rc { chR with buf := chR.buf ++ [m] } s.chans) =
        some chS := by
      rw [alLookup_alInsert, if_neg hcsrc, hchS]
    simp only [hubStep, hs1]
    simp [sendTo, hcs, hlch, hopenS, hfullS]

/-- C2, witness: alice dispatches to bob whose capacity-1 queue is already
full; bob is evicted and his queue closed, while alice's echo is enqueued
untouched. -/
theorem C2_witness :
    hubStep 5 c2State (HubEvent.broadcast exMsg) =
      some { c2State with
               Clients := alErase "bob" c2State.Clients,
               chans := alInsert 1 { cap := 1, buf := [exMsg], closed := false }
                         (alInsert 2 { cap := 1, buf := [exMsg], closed := true }
                           c2State.chans) } :=
  (C2_full_queue_evicts_only_that_target c2State exMsg 2 1
      { cap := 1, buf := [exMsg], closed := false }
      { cap := 1, buf := [], closed := false } 5
      (by decide) (by decide) (by decide) (by decide) (by decide) (by decide)
      (by decide) (by decide)).left (by decide) (by decide)

/-- C4: a valid request from connected user A to a distinct connected user B
builds one Message — fresh id, sender A, the request's receiver, content and
type, read false, server-clock creation time, the request supplying no
timestamp at all — and that identical Message is appended to the message
store, to B's outbound queue, and to A's outbound queue, while A's last_seen
is refreshed. -/
theorem C4_message_persisted_and_delivered_to_both (s : HubState) (c : Client)
    (freshId tCreate tSeen : Nat) (req : SendMessageRequest) (rc cs : Nat)
    (chR chS : ChanState)
    (hv : req.Validate = [])
    (hself : req.ReceiverID ≠ c.UserID)
    (hrc : alLookup req.ReceiverID s.Clients = some rc)
    (hcs : alLookup c.UserID s.Clients = some cs)
    (hcid : rc ≠ cs)
    (hchR : alLookup rc s.chans = some chR)
    (hopenR : chR.closed = false)
    (hokR : chR.buf.length < chR.cap)
    (hchS : alLookup cs s.chans = some chS)
    (hopenS : chS.closed = false)
    (hokS : chS.buf.length < chS.cap) :
    pipelineMessage c freshId tCreate req =
      { ID := freshId, SenderID := c.UserID, ReceiverID := req.ReceiverID,
        Content := req.Content, msgType := req.msgType,
        Read := false, CreatedAt := tCreate } ∧
    frameStep c freshId tCreate tSeen true req s =
      some { Clients := s.Clients,
             chans := alInsert cs
                        { chS with buf := chS.buf ++ [pipelineMessage c freshId tCreate req] }
                        (alInsert rc
                          { chR with buf := chR.buf ++ [pipelineMessage c freshId tCreate req] }
                          s.chans),
             users := setLastSeen s.users c.UserID tSeen,
             messages := s.messages ++ [pipelineMessage c freshId tCreate req] } := by
  have hcsrc : ¬ cs = rc := by
    intro hh
    exact hcid hh.symm
  refine ⟨rfl, ?_⟩
  have hm : processFrame c freshId tCreate tSeen true req s =
      ({ s with messages := s.messages ++ [pipelineMessage c freshId tCreate req],
                users := setLastSeen s.users c.UserID tSeen },
       some (pipelineMessage c freshId tCreate req)) := by
    simp [processFrame, hv, hself]
  have hlch : alLookup cs
      (alInsert rc
        { cap := chR.cap,
          buf := chR.buf ++
            [{ ID := freshId, SenderID := c.UserID, ReceiverID := req.ReceiverID,
               Content := req.Content, msgType := req.msgType,
               Read := false, CreatedAt := tCreate }],
          closed := false } s.chans) = some chS := by
    rw [alLookup_alInsert, if_neg hcsrc, hchS]
  simp only [frameStep, hm, hubStep]
  simp [sendTo, pipelineMessage, hrc, hchR, hopenR, hokR, hcs, hlch, hopenS, hokS]

/-- C4, witness: alice sends hi to bob, both connected with room in their
queues; the one constructed Message lands in the store and in both queues. -/
theorem C4_witness :
    frameStep exClient 7 5 6 true exReq c4State =
      some { Clients := c4State.Clients,
             chans := alInsert 1 { openChan with buf := [pipelineMessage exClient 7 5 exReq] }
                       (alInsert 2 { openChan with buf := [pipelineMessage exClient 7 5 exReq] }
                         c4State.chans),
             users := setLastSeen c4State.users "alice" 6,
             messages := [pipelineMessage exClient 7 5 exReq] } :=
  (C4_message_persisted_and_delivered_to_both c4State exClient 7 5 6 exReq 2 1
      openChan openChan
      (by decide) (by decide) (by decide) (by decide) (by decide)
      (by decide) (by decide) (by decide)
      (by decide) (by decide) (by decide)).right

/-- C5: in every reachable system state, no persisted message and no message
sitting in any outbound queue has sender identity equal to receiver identity;
the pipeline's self-address check rejects such requests before any side
effect.  Store and queues being append-only in the model, this covers
everything ever persisted or dispatched. -/
theorem C5_no_self_message_ever (s : SysState) (h : Reachable s) :
    (∀ m ∈ s.hub.messages, m.SenderID ≠ m.ReceiverID) ∧
    (∀ cid ch, alLookup cid s.hub.chans = some ch →
      ∀ m ∈ ch.buf, m.SenderID ≠ m.ReceiverID) := by
  induction h with
  | start users =>
    constructor
    · intro m hm
      simp [initState] at hm
    · intro cid ch hch
      simp [initState, alLookup] at hch
  | step hr hstep ih =>
    exact hubOk_sysStep ih hstep

/-- C5, witness: the invariant holds of the initial state with an empty users
store, which is reachable. -/
theorem C5_witness :
    (∀ m ∈ (initState []).hub.messages, m.SenderID ≠ m.ReceiverID) ∧
    (∀ cid ch, alLookup cid (initState []).hub.chans = some ch →
      ∀ m ∈ ch.buf, m.SenderID ≠ m.ReceiverID) :=
  C5_no_self_message_ever (initState []) (Reachable.start [])

/-- C8: presence bookkeeping.  Register sets the identity's persisted document
to online with last_seen the current time; an Unregister that removes a
registry entry sets it to offline with an updated last_seen; a successfully
processed inbound message rewrites only the sender's last_seen, keeping the
online flag exactly as it was. -/
theorem C8_presence_transitions (s : HubState) (c : Client) (t freshId tCreate tSeen : Nat)
    (req : SendMessageRequest) :
    (∀ d : UserDoc, alLookup c.UserID s.users = some d →
      hubStep t s (HubEvent.register c) =
        some { s with Clients := alInsert c.UserID c.cid s.Clients,
                      users := alInsert c.UserID { online := true, last_seen := t } s.users }) ∧
    (∀ (d : UserDoc) (rc : Nat) (ch : ChanState),
      alLookup c.UserID s.users = some d →
      alLookup c.UserID s.Clients = some rc →
      alLookup c.cid s.chans = some ch → ch.closed = false →
      hubStep t s (HubEvent.unregister c) =
        some { s with Clients := alErase c.UserID s.Clients,
                      chans := alInsert c.cid { ch with closed := true } s.chans,
                      users := alInsert c.UserID { online := false, last_seen := t } s.users }) ∧
    (∀ d : UserDoc, alLookup c.UserID s.users = some d →
      req.Validate = [] → req.ReceiverID ≠ c.UserID →
      processFrame c freshId tCreate tSeen true req s =
        ({ s with messages := s.messages ++ [pipelineMessage c freshId tCreate req],
                  users := alInsert c.UserID { online := d.online, last_seen := tSeen } s.users },
         some (pipelineMessage c freshId tCreate req))) := by
  refine ⟨?_, ?_, ?_⟩
  · intro d hd
    simp [hubStep, setPresence, hd]
  · intro d rc ch hd hreg hch hopen
    simp [hubStep, closeSend, setPresence, hd, hreg, hch, hopen]
  · intro d hd hv hself
    simp [processFrame, setLastSeen, hd, hv, hself]

/-- C8, witness: the three presence transitions evaluated on the concrete
two-user state for alice's connection 1. -/
theorem C8_witness :
    hubStep 11 c4State (HubEvent.register exClient) =
      some { c4State with
               Clients := alInsert "alice" 1 c4State.Clients,
               users := alInsert "alice" { online := true, last_seen := 11 } c4State.users } ∧
    hubStep 12 c4State (HubEvent.unregister exClient) =
      some { c4State with
               Clients := alErase "alice" c4State.Clients,
               chans := alInsert 1 { openChan with closed := true } c4State.chans,
               users := alInsert "alice" { online := false, last_seen := 12 } c4State.users } ∧
    processFrame exClient 7 5 6 true exReq c4State =
      ({ c4State with
           messages := c4State.messages ++ [pipelineMessage exClient 7 5 exReq],
           users := alInsert "alice" { online := true, last_seen := 6 } c4State.users },
       some (pipelineMessage exClient 7 5 exReq)) :=
  ⟨(C8_presence_transitions c4State exClient 11 7 5 6 exReq).1
      { online := true, last_seen := 3 } (by decide),
   (C8_presence_transitions c4State exClient 12 7 5 6 exReq).2.1
      { online := true, last_seen := 3 } 1 openChan
      (by decide) (by decide) (by decide) (by decide),
   (C8_presence_transitions c4State exClient 12 7 5 6 exReq).2.2
      { online := true, last_seen := 3 } (by decide) (by decide) (by decide)⟩

/-- C9: a handshake whose token is absent, whose parse/validation fails,
whose claims are not a claims map, or whose user_id claim is not a non-empty
string, closes the transport with no payload — no Client is created, nothing
is registered, and the system state is unchanged.  Only on success is a
Client with the authenticated identity and a fresh empty capacity-256 queue
created, registered (setting presence online), and recorded as a live
connection. -/
theorem C9_handshake_gate (inp : HandshakeInput) (cid tNow : Nat) (s : SysState)
    (u : String) :
    ((inp.token = "" ∨ inp.parseValid = false ∨ inp.claimsMapOk = false ∨
        (∀ v, inp.userClaim ≠ some (TokenClaim.strVal v)) ∨
        inp.userClaim = some (TokenClaim.strVal "")) →
      webSocketChat inp cid = none ∧
      sysStep s (SysEvent.handshake inp cid tNow) = some s) ∧
    (inp.token ≠ "" → inp.parseValid = true → inp.claimsMapOk = true →
      inp.userClaim = some (TokenClaim.strVal u) → u ≠ "" →
      webSocketChat inp cid = some { cid := cid, UserID := u } ∧
      (alLookup cid s.conns = none →
        sysStep s (SysEvent.handshake inp cid tNow) =
          some { hub := { Clients := alInsert u cid s.hub.Clients,
                          chans := alInsert cid freshChan s.hub.chans,
                          users := setPresence s.hub.users u true tNow,
                          messages := s.hub.messages },
                 conns := alInsert cid u s.conns })) := by
  constructor
  · intro hfail
    have hws : webSocketChat inp cid = none := by
      rcases hfail with h | h | h | h | h
      · simp [webSocketChat, h]
      · simp [webSocketChat, h]
      · simp [webSocketChat, h]
      · cases hu : inp.userClaim with
        | none => simp [webSocketChat, hu]
        | some tc =>
          cases tc with
          | strVal v => exact absurd hu (h v)
          | otherVal => simp [webSocketChat, hu]
      · simp [webSocketChat, h]
    exact ⟨hws, by simp [sysStep, hws]⟩
  · intro h1 h2 h3 h4 h5
    have hws : webSocketChat inp cid = some { cid := cid, UserID := u } := by
      simp [webSocketChat, h1, h2, h3, h4, h5]
    refine ⟨hws, ?_⟩
    intro h6
    simp [sysStep, hws, h6, hubStep, freshChan]

/-- C9, witness: a failing handshake (empty token) leaves the initial state
untouched, and the successful concrete handshake for alice registers her with
an empty capacity-256 queue. -/
theorem C9_witness :
    (webSocketChat { exHandshake with token := "" } 1 = none ∧
      sysStep (initState []) (SysEvent.handshake { exHandshake with token := "" } 1 3) =
        some (initState [])) ∧
    (webSocketChat exHandshake 1 = some { cid := 1, UserID := "alice" } ∧
      sysStep (initState []) (SysEvent.handshake exHandshake 1 3) =
        some { hub := { Clients := alInsert "alice" 1 [],
                        chans := alInsert 1 freshChan [],
                        users := setPresence [] "alice" true 3,
                        messages := [] },
               conns := alInsert 1 "alice" [] }) :=
  ⟨(C9_handshake_gate { exHandshake with token := "" } 1 3 (initState []) "alice").1
      (Or.inl (by decide)),
   ⟨((C9_handshake_gate exHandshake 1 3 (initState []) "alice").2
        (by decide) (by decide) (by decide) (by decide) (by decide)).1,
    ((C9_handshake_gate exHandshake 1 3 (initState []) "alice").2
        (by decide) (by decide) (by decide) (by decide) (by decide)).2 (by decide)⟩⟩

/-- C10: when dispatch overflow evicts a Connection — whether it was the
message's receiver (first Broadcast arm) or the sender whose echo queue was
full (second Broadcast arm) — the Hub deletes its registry entry and closes
its queue but writes nothing to the users store; afterwards, for any further
Hub activity that never re-registers that identity, the identity keeps no
registry entry, its persisted document stays exactly as it was — in
particular still online — and the read pump's eventual Unregister for the
evicted Connection is a complete no-op, so the stale online flag is never
cleared. -/
theorem C10_overflow_eviction_leaves_online_flag (s : HubState) (m : Message) (t : Nat) :
    (∀ (rc : Nat) (ch : ChanState) (d : UserDoc),
      alLookup m.ReceiverID s.Clients = some rc →
      alLookup rc s.chans = some ch → ch.closed = false →
      ¬ ch.buf.length < ch.cap →
      alLookup m.ReceiverID s.users = some d → d.online = true →
      ∀ s', hubStep t s (HubEvent.broadcast m) = some s' →
        s'.users = s.users ∧
        alLookup m.ReceiverID s'.Clients = none ∧
        (∀ (es : List (Nat × HubEvent)) (s2 : HubState) (t2 : Nat),
          (∀ p ∈ es, ∀ c : Client, p.2 = HubEvent.register c → c.UserID ≠ m.ReceiverID) →
          hubRun s' es = some s2 →
          alLookup m.ReceiverID s2.users = some { online := true, last_seen := d.last_seen } ∧
          alLookup m.ReceiverID s2.Clients = none ∧
          hubStep t2 s2 (HubEvent.unregister { cid := rc, UserID := m.ReceiverID }) =
            some s2)) ∧
    (∀ (cs : Nat) (chS : ChanState) (d : UserDoc),
      m.SenderID ≠ m.ReceiverID →
      alLookup m.SenderID s.Clients = some cs →
      alLookup cs s.chans = some chS → chS.closed = false →
      ¬ chS.buf.length < chS.cap →
      alLookup m.SenderID s.users = some d → d.online = true →
      (alLookup m.ReceiverID s.Clients = none ∨
        (∃ rc chR, alLookup m.ReceiverID s.Clients = some rc ∧ rc ≠ cs ∧
          alLookup rc s.chans = some chR ∧ chR.closed = false)) →
      ∀ s', hubStep t s (HubEvent.broadcast m) = some s' →
        s'.users = s.users ∧
        alLookup m.SenderID s'.Clients = none ∧
        (∀ (es : List (Nat × HubEvent)) (s2 : HubState) (t2 : Nat),
          (∀ p ∈ es, ∀ c : Client, p.2 = HubEvent.register c → c.UserID ≠ m.SenderID) →
          hubRun s' es = some s2 →
          alLookup m.SenderID s2.users = some { online := true, last_seen := d.last_seen } ∧
          alLookup m.SenderID s2.Clients = none ∧
          hubStep t2 s2 (HubEvent.unregister { cid := cs, UserID := m.SenderID }) =
            some s2)) := by
  constructor
  · intro rc ch d hrc hch hopen hfull hdoc honline s' hs'
    have hs1 : sendTo s m.ReceiverID m =
        some { s with Clients := alErase m.ReceiverID s.Clients,
                      chans := alInsert rc { ch with closed := true } s.chans } := by
      simp [sendTo, hrc, hch, hopen, hfull]
    simp only [hubStep, hs1] at hs'
    have hu : s'.users = s.users := by
      have h0 := users_sendTo hs'
      simpa using h0
    have hcl0 : alLookup m.ReceiverID
        (HubState.Clients { s with Clients := alErase m.ReceiverID s.Clients,
                                   chans := alInsert rc { ch with closed := true } s.chans }) =
        none := by
      show alLookup m.ReceiverID (alErase m.ReceiverID s.Clients) = none
      rw [alLookup_alErase]
      simp
    have hcl : alLookup m.ReceiverID s'.Clients = none := clientsNone_sendTo hcl0 hs'
    have hud : alLookup m.ReceiverID s'.users = some d := by
      rw [hu]
      exact hdoc
    exact ⟨hu, hcl, fun es s2 t2 hes hrun =>
      stale_online_after_eviction rc hcl hud honline es s2 t2 hes hrun⟩
  · intro cs chS d hne hcs hchS hopenS hfullS hdocS honlineS hrecv s' hs'
    have hcsrc : ∀ rc : Nat, rc ≠ cs → ¬ cs = rc := by
      intro rc hrc hh
      exact hrc hh.symm
    simp only [hubStep] at hs'
    rcases hrecv with hnone | ⟨rc, chR, hrc, hrcne, hchR, hopenR⟩
    · have hs1 : sendTo s m.ReceiverID m = some s := by
        simp [sendTo, hnone]
      simp only [hs1] at hs'
      have hev : sendTo s m.SenderID m =
          some { s with Clients := alErase m.SenderID s.Clients,
                        chans := alInsert cs { chS with closed := true } s.chans } := by
        simp [sendTo, hcs, hchS, hopenS, hfullS]
      rw [hev] at hs'
      cases hs'
      have hcl : alLookup m.SenderID (alErase m.SenderID s.Clients) = none := by
        rw [alLookup_alErase]
        simp
      refine ⟨rfl, hcl, ?_⟩
      intro es s2 t2 hes hrun
      refine stale_online_after_eviction cs ?_ ?_ honlineS es s2 t2 hes hrun
      · exact hcl
      · exact hdocS
    · by_cases hfullR : chR.buf.length < chR.cap
      · have hs1 : sendTo s m.ReceiverID m =
            some { s with chans := alInsert rc { chR with buf := chR.buf ++ [m] } s.chans } := by
          simp [sendTo, hrc, hchR, hopenR, hfullR]
        simp only [hs1] at hs'
        have hlch : alLookup cs (alInsert rc { chR with buf := chR.buf ++ [m] } s.chans) =
            some chS := by
          rw [alLookup_alInsert, if_neg (hcsrc rc hrcne), hchS]
        have hev : sendTo { s with
              chans := alInsert rc { chR with buf := chR.buf ++ [m] } s.chans } m.SenderID m =
            some { s with
                     Clients := alErase m.SenderID s.Clients,
                     chans := alInsert cs { chS with closed := true }
                               (alInsert rc { chR with buf := chR.buf ++ [m] } s.chans) } := by
          simp [sendTo, hcs, hlch, hopenS, hfullS]
        rw [hev] at hs'
        cases hs'
        have hcl : alLookup m.SenderID (alErase m.SenderID s.Clients) = none := by
          rw [alLookup_alErase]
          simp
        refine ⟨rfl, hcl, ?_⟩
        intro es s2 t2 hes hrun
        refine stale_online_after_eviction cs ?_ ?_ honlineS es s2 t2 hes hrun
        · exact hcl
        · exact hdocS
      · have hs1 : sendTo s m.ReceiverID m =
            some { s with Clients := alErase m.ReceiverID s.Clients,
                          chans := alInsert rc { chR with closed := true } s.chans } := by
          simp [sendTo, hrc, hchR, hopenR, hfullR]
        simp only [hs1] at hs'
        have hlc : alLookup m.SenderID (alErase m.ReceiverID s.Clients) = some cs := by
          rw [alLookup_alErase, if_neg hne, hcs]
        have hlch : alLookup cs (alInsert rc { chR with closed := true } s.chans) =
            some chS := by
          rw [alLookup_alInsert, if_neg (hcsrc rc hrcne), hchS]
        have hev : sendTo { s with
              Clients := alErase m.ReceiverID s.Clients,
              chans := alInsert rc { chR with closed := true } s.chans } m.SenderID m =
            some { s with
                     Clients := alErase m.SenderID (alErase m.ReceiverID s.Clients),
                     chans := alInsert cs { chS with closed := true }
                               (alInsert rc { chR with closed := true } s.chans) } := by
          simp [sendTo, hlc, hlch, hopenS, hfullS]
        rw [hev] at hs'
        cases hs'
        have hcl : alLookup m.SenderID (alErase m.SenderID (alErase m.ReceiverID s.Clients)) =
            none := by
          rw [alLookup_alErase]
          simp
        refine ⟨rfl, hcl, ?_⟩
        intro es s2 t2 hes hrun
        refine stale_online_after_eviction cs ?_ ?_ honlineS es s2 t2 hes hrun
        · exact hcl
        · exact hdocS

/-- C10, witness: first, bob's capacity-1 queue overflows on a dispatch from
alice — bob is evicted with no presence write and a later Unregister for his
evicted connection 2 leaves his document online; second, alice's own
capacity-1 echo queue overflows on her dispatch to the offline bob — alice is
evicted on the sender arm with no presence write and her later Unregister
leaves her document online. -/
theorem C10_witness :
    (alLookup "bob" c10After.users = some { online := true, last_seen := 4 } ∧
      alLookup "bob" c10After.Clients = none ∧
      hubStep 9 c10After (HubEvent.unregister { cid := 2, UserID := "bob" }) =
        some c10After) ∧
    (alLookup "alice" c10SAfter.users = some { online := true, last_seen := 3 } ∧
      alLookup "alice" c10SAfter.Clients = none ∧
      hubStep 9 c10SAfter (HubEvent.unregister { cid := 1, UserID := "alice" }) =
        some c10SAfter) :=
  ⟨((C10_overflow_eviction_leaves_online_flag c10State exMsg 5).1 2
      { cap := 1, buf := [exMsg], closed := false } { online := true, last_seen := 4 }
      (by decide) (by decide) (by decide) (by decide) (by decide) (by decide)
      c10After (by decide)).2.2 [] c10After 9 (by simp) (by decide),
   ((C10_overflow_eviction_leaves_online_flag c10SState exMsg 5).2 1
      { cap := 1, buf := [exMsg], closed := false } { online := true, last_seen := 3 }
      (by decide) (by decide) (by decide) (by decide) (by decide) (by decide) (by decide)
      (Or.inl (by decide))
      c10SAfter (by decide)).2.2 [] c10SAfter 9 (by simp) (by decide)⟩

end NgobrolYuk
